import Mathlib

/-!
Verification of the Mini-Shell command pipeline engine
(`minishell_windows_full.cpp`).

The development shallowly embeds the shell's parser, pipeline builder,
job registry and builtin commands as executable Lean functions.  OS side
effects (CreatePipe, CreateFileA, CreateProcessA, GetExitCodeProcess,
TerminateProcess) are modelled by oracle environments that decide, for
each call, whether the OS reports success; everything the shell itself
computes (control flow, bookkeeping, which handles it opens and closes,
which errors it prints) is translated directly from the source.
-/

set_option autoImplicit false

namespace MiniShell

/-- `struct Command` of the source: one parsed pipeline stage.
Empty string models the empty `std::string` (no redirection set). -/
structure Command where
  args : List String
  input_file : String
  output_file : String
  append_output : Bool
  background : Bool
deriving DecidableEq, Repr

/-- `Command()` default constructor: empty args, no redirections,
`append_output = false`, `background = false`. -/
def Command.init : Command :=
  { args := [], input_file := "", output_file := "",
    append_output := false, background := false }

/-- Whitespace as consumed by `std::istringstream` extraction. -/
def isWsChar (c : Char) : Bool :=
  c == ' ' || c == '\t' || c == '\n' || c == '\r'

/-- Split a character list into whitespace-separated tokens
(models the `while (iss >> token)` loop); `acc` holds the current
token's characters in reverse. -/
def splitWsAux : List Char → List Char → List String
  | [], acc => if acc.isEmpty then [] else [String.mk acc.reverse]
  | c :: rest, acc =>
      if isWsChar c then
        if acc.isEmpty then splitWsAux rest []
        else String.mk acc.reverse :: splitWsAux rest []
      else splitWsAux rest (c :: acc)

/-- Token stream of an input line. -/
def tokenize (input : String) : List String :=
  splitWsAux input.toList []

/-- The loop state of `parse_input`: commands pushed so far, the
current accumulator `current_cmd`, and the two pending-redirection
flags `expect_input_file` / `expect_output_file`. -/
structure ParseState where
  commands : List Command
  current : Command
  expect_input_file : Bool
  expect_output_file : Bool
deriving DecidableEq, Repr

/-- One iteration of the token loop of `parse_input`
(source lines 76-101), translated branch for branch. -/
def parse_step (st : ParseState) (token : String) : ParseState :=
  if token = "|" then
    if st.current.args.isEmpty then st
    else { st with commands := st.commands ++ [st.current], current := Command.init }
  else if token = "<" then
    { st with expect_input_file := true }
  else if token = ">" then
    { st with expect_output_file := true,
              current := { st.current with append_output := false } }
  else if token = ">>" then
    { st with expect_output_file := true,
              current := { st.current with append_output := true } }
  else if token = "&" then
    { st with current := { st.current with background := true } }
  else if st.expect_input_file then
    { st with current := { st.current with input_file := token },
              expect_input_file := false }
  else if st.expect_output_file then
    { st with current := { st.current with output_file := token },
              expect_output_file := false }
  else
    { st with current := { st.current with args := st.current.args ++ [token] } }

/-- `parse_input` run over an explicit token list: fold the loop body,
then push the final accumulator if it has at least one argument
(source lines 103-105). -/
def parse_tokens (tokens : List String) : List Command :=
  let fin := tokens.foldl parse_step
    { commands := [], current := Command.init,
      expect_input_file := false, expect_output_file := false }
  if fin.current.args.isEmpty then fin.commands
  else fin.commands ++ [fin.current]

/-- `parse_input(const std::string&)`: tokenize, then run the loop. -/
def parse_input (input : String) : List Command :=
  parse_tokens (tokenize input)

/-! ## Pipeline builder (`execute_pipeline`, multi-stage path)

For `commands.size() >= 2` the source allocates `N-1` anonymous pipes,
resolves each stage's stdin/stdout, calls `CreateProcessA` once per
stage, closes the parent-side pipe handles, and then either waits on
all launched processes or registers the first one as a background job.
-/

/-- OS handles visible to the builder.  `invalid` is
`INVALID_HANDLE_VALUE`, the value `CreateFileA` returns on failure. -/
inductive Handle where
  | stdIn
  | stdOut
  | stdErr
  | pipeRead (i : Nat)
  | pipeWrite (i : Nat)
  | file (name : String)
  | invalid
deriving DecidableEq, Repr

/-- Oracle for the OS calls the builder makes: whether the `i`-th
`CreatePipe` succeeds, whether `CreateFileA` succeeds on a given file
for reading / writing, and whether `CreateProcessA` succeeds for
stage `i`. -/
structure OsEnv where
  pipeOk : Nat → Bool
  openInputOk : String → Bool
  openOutputOk : String → Bool
  launchOk : Nat → Bool

/-- Error messages the multi-stage path can print.  Note there is no
file-open error: the source never checks the `CreateFileA` results in
this path. -/
inductive PipeErr where
  | cannotCreatePipe
  | cannotExecute (name : String)
deriving DecidableEq, Repr

/-- Index of the first failing `CreatePipe` call among the `m` calls
the pipe-allocation loop makes (source lines 440-451), if any. -/
def firstPipeFail (pipeOk : Nat → Bool) (m : Nat) : Option Nat :=
  (List.range m).find? (fun i => ! pipeOk i)

/-- The endpoints of pipes `0 .. k-1`: each successful `CreatePipe`
opens one read end and one write end. -/
def pipeEndpoints (k : Nat) : List Handle :=
  (List.range k).flatMap (fun j => [Handle.pipeRead j, Handle.pipeWrite j])

/-- Stdin resolution for stage `i` (source lines 462-477): stage 0
uses its input file, if any — with **no check** of the `CreateFileA`
result, so a failed open passes `INVALID_HANDLE_VALUE` on — otherwise
the console; every later stage uses the read end of pipe `i-1`. -/
def stageStdin (env : OsEnv) (commands : List Command) (i : Nat) : Handle :=
  if i = 0 then
    let c := commands.getD 0 Command.init
    if c.input_file ≠ "" then
      if env.openInputOk c.input_file then Handle.file c.input_file
      else Handle.invalid
    else Handle.stdIn
  else Handle.pipeRead (i - 1)

/-- Stdout resolution for stage `i` (source lines 479-498): the last
stage uses its output file, if any (again unchecked on failure),
otherwise the console; every earlier stage uses the write end of pipe
`i`.  The `SetFilePointer` seek in append mode is not modelled: no
claim refers to file contents. -/
def stageStdout (env : OsEnv) (commands : List Command) (i : Nat) : Handle :=
  if i = commands.length - 1 then
    let c := commands.getD i Command.init
    if c.output_file ≠ "" then
      if env.openOutputOk c.output_file then Handle.file c.output_file
      else Handle.invalid
    else Handle.stdOut
  else Handle.pipeWrite i

/-- Observable outcome of one run of the multi-stage path of
`execute_pipeline`. -/
structure MultiRun where
  /-- Pipes successfully created before any failure. -/
  pipesAllocated : Nat
  /-- Pipe endpoints the parent opened (two per allocated pipe). -/
  openedEndpoints : List Handle
  /-- Pipe endpoints the parent closed (lines 520-522). -/
  parentClosed : List Handle
  /-- `true` when a `CreatePipe` failure made the function return
  before launching anything (line 446). -/
  earlyReturn : Bool
  /-- The stdin/stdout pair resolved for each stage, in stage order. -/
  stageIO : List (Handle × Handle)
  /-- Error messages printed, in program order. -/
  errors : List PipeErr
  /-- Stage indices whose `CreateProcessA` succeeded (the contents of
  `hProcesses`, by stage). -/
  launched : List Nat
  /-- `commands.back().background` as read at line 524 (`false` on the
  early-return path, where line 524 is never reached). -/
  background : Bool
  /-- Stage indices whose processes the parent waits on. -/
  waited : List Nat
  /-- The stage registered as a background job, if any. -/
  jobStage : Option Nat
  /-- Launched stages whose handles are closed without waiting
  (background path, lines 541-543). -/
  releasedWithoutWait : List Nat
deriving DecidableEq, Repr

/-- The multi-stage path of `execute_pipeline` (source lines 434-553),
for `commands.length ≥ 2`.  A `CreatePipe` failure prints an error and
returns at once, leaving every already-opened endpoint unclosed; on
the normal path all stages are attempted in order (a launch failure
prints an error and `continue`s), the parent closes both ends of all
`N-1` pipes, and the background decision reads only the last stage. -/
def execute_pipeline_multi (env : OsEnv) (commands : List Command) : MultiRun :=
  let n := commands.length
  match firstPipeFail env.pipeOk (n - 1) with
  | some k =>
      { pipesAllocated := k
        openedEndpoints := pipeEndpoints k
        parentClosed := []
        earlyReturn := true
        stageIO := []
        errors := [PipeErr.cannotCreatePipe]
        launched := []
        background := false
        waited := []
        jobStage := none
        releasedWithoutWait := [] }
  | none =>
      let launched := (List.range n).filter (fun i => env.launchOk i)
      let bg := (commands.getLastD Command.init).background
      { pipesAllocated := n - 1
        openedEndpoints := pipeEndpoints (n - 1)
        parentClosed := pipeEndpoints (n - 1)
        earlyReturn := false
        stageIO := (List.range n).map
          (fun i => (stageStdin env commands i, stageStdout env commands i))
        errors := ((List.range n).filter (fun i => ! env.launchOk i)).map
          (fun i => PipeErr.cannotExecute ((commands.getD i Command.init).args.headD ""))
        launched := launched
        background := bg
        waited := if bg then [] else launched
        jobStage := if bg then launched.head? else none
        releasedWithoutWait := if bg then launched.drop 1 else [] }

/-- Environment in which every OS call succeeds. -/
def envAllOk : OsEnv :=
  { pipeOk := fun _ => true, openInputOk := fun _ => true,
    openOutputOk := fun _ => true, launchOk := fun _ => true }

/-- Environment in which only the first `CreatePipe` succeeds. -/
def envPipeFail : OsEnv :=
  { envAllOk with pipeOk := fun i => i == 0 }

/-- Environment in which no input file can be opened. -/
def envOpenFail : OsEnv :=
  { envAllOk with openInputOk := fun _ => false }

example : firstPipeFail envPipeFail.pipeOk 2 = some 1 := by decide

example :
    (execute_pipeline_multi envPipeFail (parse_input "a | b | c")).parentClosed
      = [] := by decide

example : tokenize "a  b | c" = ["a", "b", "|", "c"] := by decide

example : parse_input "a | b | c" =
    [{ Command.init with args := ["a"] },
     { Command.init with args := ["b"] },
     { Command.init with args := ["c"] }] := by decide

example : parse_input "a < | b c" =
    [{ Command.init with args := ["a"] },
     { Command.init with args := ["c"], input_file := "b" }] := by decide

/-! ## `std::stoi` and the `exit` builtin -/

/-- Numeric value of a digit run. -/
def digitsVal (ds : List Char) : Nat :=
  ds.foldl (fun a c => a * 10 + (c.toNat - 48)) 0

/-- `std::stoi(s)` with the exception outcomes mapped to `none`
(the source catches every exception with `catch (...)`):
skip leading whitespace, take an optional sign and then the longest
leading digit run; `none` when there is no digit
(`std::invalid_argument`) or the value does not fit a 32-bit `int`
(`std::out_of_range`).  Trailing non-digit characters are ignored. -/
def stoiM (s : String) : Option Int :=
  let cs := s.toList.dropWhile (fun c => c.isWhitespace)
  let signRest : Int × List Char :=
    match cs with
    | '-' :: r => (-1, r)
    | '+' :: r => (1, r)
    | r => (1, r)
  let ds := signRest.2.takeWhile (fun c => c.isDigit)
  if ds.isEmpty then none
  else
    let v : Int := signRest.1 * (digitsVal ds : Nat)
    if v < -2147483648 ∨ 2147483647 < v then none else some v

/-- Stated from the spec's words, for comparison with `stoiM`: a string
is an integer argument when it is an optional sign followed by one or
more digits and nothing else. -/
def isIntegerLiteral (s : String) : Bool :=
  let rest :=
    match s.toList with
    | '-' :: r => r
    | '+' :: r => r
    | r => r
  !rest.isEmpty && rest.all (fun c => c.isDigit)

/-- Outcome of `builtin_exit`: either the whole shell process exits
with a code, or `exit: invalid argument` is printed and the function
returns with the shell still running. -/
inductive ExitOut where
  | exitWith (code : Int)
  | invalidArgument
deriving DecidableEq, Repr

/-- `builtin_exit` (source lines 167-188): with more than one
argument, `std::stoi(args[1])`; an exception prints the error and
returns; otherwise — and with no argument, where the code stays 0 —
the process exits with the parsed code. -/
def builtin_exit (args : List String) : ExitOut :=
  if 1 < args.length then
    match stoiM (args.getD 1 "") with
    | none => ExitOut.invalidArgument
    | some c => ExitOut.exitWith c
  else ExitOut.exitWith 0

example : stoiM "12abc" = some 12 := by decide
example : builtin_exit ["exit", "abc"] = ExitOut.invalidArgument := by decide

/-! ## Job registry -/

/-- `struct Job`: process handle (`none` models `NULL`), process id,
display string, and the `completed` flag (always `false` in practice:
the source never sets it). -/
structure JobRec where
  hProcess : Option Nat
  processId : Nat
  command : String
  completed : Bool
deriving DecidableEq, Repr

/-- Insertion into an ascending `std::map<int, Job>` association list,
replacing an existing binding. -/
def mapInsert (k : Nat) (v : JobRec) :
    List (Nat × JobRec) → List (Nat × JobRec)
  | [] => [(k, v)]
  | (k2, v2) :: rest =>
      if k < k2 then (k, v) :: (k2, v2) :: rest
      else if k = k2 then (k, v) :: rest
      else (k2, v2) :: mapInsert k v rest

/-- The shell's job-tracking state: the `jobs` map (kept ascending by
key, as `std::map` iterates) and `job_counter`. -/
structure Registry where
  jobs : List (Nat × JobRec)
  job_counter : Nat
deriving DecidableEq, Repr

/-- The registry as the `WindowsShell` constructor makes it:
no jobs, `job_counter = 1` (source line 604). -/
def Registry.start : Registry := { jobs := [], job_counter := 1 }

/-- `add_job` (source lines 559-561):
`jobs[job_counter++] = Job(...)`; returns the id just assigned. -/
def add_job (st : Registry) (h : Option Nat) (pid : Nat) (cmd : String) :
    Registry × Nat :=
  ({ jobs := mapInsert st.job_counter
       { hProcess := h, processId := pid, command := cmd, completed := false }
       st.jobs,
     job_counter := st.job_counter + 1 },
   st.job_counter)

/-- `remove_job` (source lines 563-565): `jobs.erase(job_id)`. -/
def remove_job (st : Registry) (id : Nat) : Registry :=
  { st with jobs := st.jobs.filter (fun p => p.1 != id) }

/-- Oracle for `GetExitCodeProcess`: whether the query on a handle
succeeds, and the exit code it reports when it does. -/
structure JobsEnv where
  queryOk : Nat → Bool
  exitCode : Nat → Nat

/-- The Windows `STILL_ACTIVE` pseudo exit code. -/
def STILL_ACTIVE : Nat := 259

/-- The condition under which `check_background_jobs` treats a job as
done (source lines 570-581): the handle is non-null, the
`GetExitCodeProcess` query **succeeds**, and the code it reports is
not `STILL_ACTIVE`.  A failed query falls through silently. -/
def jobFinished (env : JobsEnv) (j : JobRec) : Bool :=
  match j.hProcess with
  | some h => env.queryOk h && (env.exitCode h != STILL_ACTIVE)
  | none => false

/-- `check_background_jobs` (source lines 567-587): collect the ids of
jobs observed finished (in ascending map order), close their handles,
and erase them; returns the new map and the ids reported `Done`. -/
def check_background_jobs (env : JobsEnv) (jobs : List (Nat × JobRec)) :
    List (Nat × JobRec) × List Nat :=
  let completed := (jobs.filter (fun p => jobFinished env p.2)).map (fun p => p.1)
  (jobs.filter (fun p => ! jobFinished env p.2), completed)

/-- A session-level registry operation: a background launch that calls
`add_job`, or any of the paths that call `remove_job`. -/
inductive JobOp where
  | add (h : Option Nat) (pid : Nat) (cmd : String)
  | remove (id : Nat)

/-- Whether an operation is an `add_job` call. -/
def JobOp.isAdd : JobOp → Bool
  | JobOp.add _ _ _ => true
  | JobOp.remove _ => false

/-- Run a sequence of registry operations, collecting the job ids the
`add_job` calls assign, in order. -/
def runOps : Registry → List JobOp → Registry × List Nat
  | st, [] => (st, [])
  | st, JobOp.add h pid cmd :: rest =>
      let r := add_job st h pid cmd
      let r2 := runOps r.1 rest
      (r2.1, r.2 :: r2.2)
  | st, JobOp.remove i :: rest => runOps (remove_job st i) rest

/-! ## `fg` and `kill` builtins -/

/-- Outcome of `builtin_fg`. -/
inductive FgOut where
  | jobIdRequired
  | invalidJobId
  | jobNotFound
  | waited (id : Nat)
deriving DecidableEq, Repr

/-- Outcome of `builtin_kill`. -/
inductive KillOut where
  | jobIdRequired
  | invalidJobId
  | jobNotFound
  | terminated (id : Nat)
  | terminateFailed
deriving DecidableEq, Repr

/-- `builtin_fg` (source lines 207-235): needs `args[1]`, parses it
with `std::stoi` (an exception prints `invalid job id`), looks the id
up in `jobs` (absence prints `job not found` and changes nothing);
on success it waits on the process, closes the handle and removes the
job. -/
def builtin_fg (st : Registry) (args : List String) : Registry × FgOut :=
  if args.length < 2 then (st, FgOut.jobIdRequired)
  else
    match stoiM (args.getD 1 "") with
    | none => (st, FgOut.invalidJobId)
    | some jid =>
        match st.jobs.find? (fun p => ((p.1 : Int) == jid)) with
        | none => (st, FgOut.jobNotFound)
        | some p => (remove_job st p.1, FgOut.waited p.1)

/-- `builtin_kill` (source lines 237-264): same argument handling and
lookup as `fg`; then `TerminateProcess(handle, 1)` — success closes
the handle and removes the job, failure prints
`kill: failed to terminate process` and leaves the registry as it
was.  `termOk` is the oracle for `TerminateProcess`; a `NULL` handle
always fails. -/
def builtin_kill (termOk : Nat → Bool) (st : Registry) (args : List String) :
    Registry × KillOut :=
  if args.length < 2 then (st, KillOut.jobIdRequired)
  else
    match stoiM (args.getD 1 "") with
    | none => (st, KillOut.invalidJobId)
    | some jid =>
        match st.jobs.find? (fun p => ((p.1 : Int) == jid)) with
        | none => (st, KillOut.jobNotFound)
        | some p =>
            let ok := match p.2.hProcess with
              | some h => termOk h
              | none => false
            if ok then (remove_job st p.1, KillOut.terminated p.1)
            else (st, KillOut.terminateFailed)

/-! ## Shared helper lemmas and concrete fixtures -/

/-- `GetExitCodeProcess` oracle in which every query fails. -/
def envQueryFail : JobsEnv :=
  { queryOk := fun _ => false, exitCode := fun _ => 0 }

/-- A tracked job with a live handle, used by concrete instances. -/
def jrecQ : JobRec :=
  { hProcess := some 7, processId := 42, command := "ping x", completed := false }

/-- A registry holding one job under id 1, used by concrete instances. -/
def stW : Registry := { jobs := [(1, jrecQ)], job_counter := 2 }

/-- The ids assigned by a run of registry operations are consecutive
from the starting counter, and the counter advances by the number of
`add_job` calls. -/
theorem runOps_assigns (ops : List JobOp) :
    ∀ st : Registry,
      (runOps st ops).2
          = List.range' st.job_counter (ops.countP (fun o => o.isAdd)) ∧
      (runOps st ops).1.job_counter
          = st.job_counter + ops.countP (fun o => o.isAdd) := by
  induction ops with
  | nil => intro st; simp [runOps]
  | cons op rest ih =>
      intro st
      cases op with
      | add h pid cmd =>
          have hrec := ih (add_job st h pid cmd).1
          simp only [add_job] at hrec
          refine ⟨?_, ?_⟩
          · simp only [runOps, add_job, hrec.1, List.countP_cons]
            simp [JobOp.isAdd, List.range'_succ]
          · simp only [runOps, add_job, hrec.2, List.countP_cons]
            simp [JobOp.isAdd]
            omega
      | remove i =>
          have hrec := ih (remove_job st i)
          refine ⟨?_, ?_⟩
          · simp only [runOps, hrec.1, List.countP_cons]
            simp [JobOp.isAdd, remove_job]
          · simp only [runOps, hrec.2, List.countP_cons]
            simp [JobOp.isAdd, remove_job]

/-! ## Claims -/

/-- C9 (confirmed): the pending-redirection flags survive a `|` token
unchanged, so the plain token after `"a < | b c"`'s pipe is consumed
as the new stage's `input_file`: the second stage comes out with
`input_file = "b"` and arguments `["c"]`. -/
theorem c9_redirection_state_crosses_pipe :
    (∀ st : ParseState,
        (parse_step st "|").expect_input_file = st.expect_input_file ∧
        (parse_step st "|").expect_output_file = st.expect_output_file) ∧
    parse_input "a < | b c" =
      [{ Command.init with args := ["a"] },
       { Command.init with args := ["c"], input_file := "b" }] := by
  refine ⟨fun st => ?_, by decide⟩
  by_cases h : st.current.args.isEmpty <;>
    simp [parse_step, h]

/-- C10 (confirmed): when both redirection expectations are pending,
the next plain token is assigned to `input_file` (the input flag is
tested first) and the output expectation stays pending; concretely
`"a < > f"` leaves `output_file` unset while `"a < > f g"` then fills
it with the following token. -/
theorem c10_input_expectation_checked_first :
    (∀ (st : ParseState) (tok : String),
        tok ≠ "|" → tok ≠ "<" → tok ≠ ">" → tok ≠ ">>" → tok ≠ "&" →
        st.expect_input_file = true →
        (parse_step st tok).current.input_file = tok ∧
        (parse_step st tok).expect_input_file = false ∧
        (parse_step st tok).expect_output_file = st.expect_output_file ∧
        (parse_step st tok).current.output_file = st.current.output_file) ∧
    parse_input "a < > f" =
      [{ Command.init with args := ["a"], input_file := "f" }] ∧
    parse_input "a < > f g" =
      [{ Command.init with args := ["a"], input_file := "f", output_file := "g" }] := by
  refine ⟨?_, by decide, by decide⟩
  intro st tok h1 h2 h3 h4 h5 h6
  simp [parse_step, h1, h2, h3, h4, h5, h6]

/-- Witness for C10 at a concrete state with both flags pending and
the plain token `"f"`. -/
theorem c10_input_expectation_checked_first_witness :
    (parse_step
        { commands := [], current := Command.init,
          expect_input_file := true, expect_output_file := true } "f").current.input_file
      = "f" :=
  (c10_input_expectation_checked_first.1
    { commands := [], current := Command.init,
      expect_input_file := true, expect_output_file := true } "f"
    (by decide) (by decide) (by decide) (by decide) (by decide) rfl).1

/-- C4 (confirmed): for every multi-stage pipeline that reaches the
decision at line 524, running in the background is decided exactly by
the **last** stage's `background` flag — the flags of all earlier
stages are never consulted — and whenever the last stage's flag is
false the pipeline is synchronous: every launched stage is waited on
and no job is registered. -/
theorem c4_background_flag_from_last_stage :
    ∀ (env : OsEnv) (commands : List Command), 2 ≤ commands.length →
      firstPipeFail env.pipeOk (commands.length - 1) = none →
      ((execute_pipeline_multi env commands).background
          = (commands.getLastD Command.init).background ∧
       ((commands.getLastD Command.init).background = false →
          (execute_pipeline_multi env commands).waited
              = (execute_pipeline_multi env commands).launched ∧
          (execute_pipeline_multi env commands).jobStage = none)) := by
  intro env commands _ hpipe
  constructor
  · simp [execute_pipeline_multi, hpipe]
  · intro hbg
    have hbg2 : (commands.getLast?.getD Command.init).background = false := by
      simpa using hbg
    constructor <;> simp [execute_pipeline_multi, hpipe, hbg2]

/-- Witness for C4: `"a & | b"` parses with `background = true` on the
first stage and `false` on the last, and the pipeline is executed
synchronously — the mid-pipeline `&` is ignored. -/
theorem c4_background_flag_from_last_stage_witness :
    ((parse_input "a & | b").headD Command.init).background = true ∧
    (execute_pipeline_multi envAllOk (parse_input "a & | b")).background = false := by
  refine ⟨by decide, ?_⟩
  have h := c4_background_flag_from_last_stage envAllOk (parse_input "a & | b")
    (by decide) (by decide)
  rw [h.1]
  decide

/-- C6 (corrected): the parser *can* set `input_file` on a stage other
than the first — `"a | b < f"` gives the second stage
`input_file = "f"` — contradicting the claim that no stage other than
stage 0 can end up with an input source. -/
theorem c6_later_stage_input_source_cex :
    ((parse_input "a | b < f").getD 1 Command.init).input_file = "f" := by decide

/-- C6 amended: every stage `i > 0` reads from the read end of pipe
`i-1` unconditionally — the builder ignores `input_file` on later
stages, which the parser may nevertheless set, as `"a | b < f"`
shows. -/
theorem c6_later_stages_pipe_fed :
    (∀ (env : OsEnv) (commands : List Command) (i : Nat), 0 < i →
        stageStdin env commands i = Handle.pipeRead (i - 1)) ∧
    ((parse_input "a | b < f").getD 1 Command.init).input_file = "f" := by
  refine ⟨?_, by decide⟩
  intro env commands i hi
  simp [stageStdin, Nat.pos_iff_ne_zero.mp hi]

/-- Witness for C6 amended at stage 1 of `"a | b < f"`: despite its
explicit `input_file`, its stdin is the read end of pipe 0. -/
theorem c6_later_stages_pipe_fed_witness :
    stageStdin envAllOk (parse_input "a | b < f") 1 = Handle.pipeRead 0 :=
  c6_later_stages_pipe_fed.1 envAllOk (parse_input "a | b < f") 1 (by decide)

/-- C1 (corrected): on the 3-stage pipeline `"a | b | c"` with the
second `CreatePipe` failing, `execute_pipeline` allocates only one
pipe instead of `N-1 = 2`, has opened that pipe's two endpoints, and
returns without the parent closing either of them — refuting the
claim's closure guarantee on the partial-allocation failure path. -/
theorem c1_pipe_failure_leaks_cex :
    (execute_pipeline_multi envPipeFail (parse_input "a | b | c")).pipesAllocated = 1 ∧
    (execute_pipeline_multi envPipeFail (parse_input "a | b | c")).openedEndpoints
        = [Handle.pipeRead 0, Handle.pipeWrite 0] ∧
    (execute_pipeline_multi envPipeFail (parse_input "a | b | c")).parentClosed
        = [] := by decide

/-- C1 amended: when all `N-1` `CreatePipe` calls succeed, exactly
`N-1` pipes are allocated and after all launch attempts the parent
closes every endpoint it opened; but when the `k`-th `CreatePipe`
fails, the function returns at once with `k` pipes allocated and none
of their `2k` endpoints closed. -/
theorem c1_parent_closes_pipes_on_full_allocation :
    ∀ (env : OsEnv) (commands : List Command), 2 ≤ commands.length →
      ((firstPipeFail env.pipeOk (commands.length - 1) = none →
          (execute_pipeline_multi env commands).pipesAllocated
              = commands.length - 1 ∧
          (execute_pipeline_multi env commands).parentClosed
              = (execute_pipeline_multi env commands).openedEndpoints) ∧
       (∀ k, firstPipeFail env.pipeOk (commands.length - 1) = some k →
          (execute_pipeline_multi env commands).pipesAllocated = k ∧
          (execute_pipeline_multi env commands).openedEndpoints = pipeEndpoints k ∧
          (execute_pipeline_multi env commands).parentClosed = [] ∧
          (execute_pipeline_multi env commands).earlyReturn = true)) := by
  intro env commands _
  constructor
  · intro hpipe
    constructor <;> simp [execute_pipeline_multi, hpipe]
  · intro k hpipe
    refine ⟨?_, ?_, ?_, ?_⟩ <;> simp [execute_pipeline_multi, hpipe]

/-- Witness for C1 amended on `"a | b"` with every OS call
succeeding: the parent closes exactly what it opened. -/
theorem c1_parent_closes_pipes_on_full_allocation_witness :
    (execute_pipeline_multi envAllOk (parse_input "a | b")).parentClosed
        = (execute_pipeline_multi envAllOk (parse_input "a | b")).openedEndpoints :=
  ((c1_parent_closes_pipes_on_full_allocation envAllOk (parse_input "a | b")
      (by decide)).1 (by decide)).2

/-- C2 (corrected): for the claim's pipeline `"cat missing.txt | sort"`
the first stage has no `input_source` at all (`missing.txt` is an
argument), and even for `"cat < missing.txt | sort"` with the open
failing, the run reports **no** error whatsoever: the first stage is
launched with `INVALID_HANDLE_VALUE` as stdin, `sort` is launched
too, and both are waited on — so no `FileOpenError` is ever reported
in the multi-stage path. -/
theorem c2_no_file_open_error_reported_cex :
    ((parse_input "cat missing.txt | sort").headD Command.init).input_file = "" ∧
    (execute_pipeline_multi envOpenFail
        (parse_input "cat < missing.txt | sort")).errors = [] ∧
    stageStdin envOpenFail (parse_input "cat < missing.txt | sort") 0
        = Handle.invalid ∧
    (execute_pipeline_multi envOpenFail
        (parse_input "cat < missing.txt | sort")).launched = [0, 1] ∧
    (execute_pipeline_multi envOpenFail
        (parse_input "cat < missing.txt | sort")).waited = [0, 1] := by decide

/-- C2 amended: in the multi-stage path the only errors ever reported
are launch failures (there is no file-open check); a first stage whose
input file fails to open is silently given an invalid stdin handle
and still launched; and the parent waits exactly on the stages whose
launches succeeded (when the pipeline is synchronous). -/
theorem c2_stage_failure_policy :
    ∀ (env : OsEnv) (commands : List Command), 2 ≤ commands.length →
      firstPipeFail env.pipeOk (commands.length - 1) = none →
      ((∀ e, e ∈ (execute_pipeline_multi env commands).errors →
          ∃ nm, e = PipeErr.cannotExecute nm) ∧
       ((commands.getD 0 Command.init).input_file ≠ "" →
          env.openInputOk ((commands.getD 0 Command.init).input_file) = false →
          stageStdin env commands 0 = Handle.invalid) ∧
       (execute_pipeline_multi env commands).launched
          = (List.range commands.length).filter (fun i => env.launchOk i) ∧
       ((execute_pipeline_multi env commands).background = false →
          (execute_pipeline_multi env commands).waited
              = (execute_pipeline_multi env commands).launched)) := by
  intro env commands _ hpipe
  refine ⟨?_, ?_, ?_, ?_⟩
  · intro e he
    have herr : (execute_pipeline_multi env commands).errors
        = ((List.range commands.length).filter (fun i => ! env.launchOk i)).map
            (fun i => PipeErr.cannotExecute
              ((commands.getD i Command.init).args.headD "")) := by
      simp [execute_pipeline_multi, hpipe]
    rw [herr] at he
    rcases List.mem_map.mp he with ⟨i, _, rfl⟩
    exact ⟨_, rfl⟩
  · intro h1 h2
    simp only [stageStdin, if_pos rfl]
    simp only [List.getD_eq_getElem?_getD] at h1 h2
    simp [h1, h2]
  · simp [execute_pipeline_multi, hpipe]
  · intro hbg
    have hbg2 : (commands.getLast?.getD Command.init).background = false := by
      simpa [execute_pipeline_multi, hpipe] using hbg
    simp [execute_pipeline_multi, hpipe, hbg2]

/-- Witness for C2 amended at `"cat < missing.txt | sort"` with the
open failing and both launches succeeding. -/
theorem c2_stage_failure_policy_witness :
    stageStdin envOpenFail (parse_input "cat < missing.txt | sort") 0
        = Handle.invalid := by
  have h := c2_stage_failure_policy envOpenFail
    (parse_input "cat < missing.txt | sort") (by decide) (by decide)
  exact h.2.1 (by decide) (by decide)

/-- C3 (corrected): a job whose `GetExitCodeProcess` query fails is
**not** removed by `check_background_jobs` — with every query failing,
the single tracked job survives the poll untouched and nothing is
reported, refuting the claim that a failed query is treated as
completion. -/
theorem c3_failed_query_keeps_job_cex :
    (check_background_jobs envQueryFail [(1, jrecQ)]).1 = [(1, jrecQ)] ∧
    (check_background_jobs envQueryFail [(1, jrecQ)]).2 = [] := by decide

/-- C3 amended: the poll keeps exactly the jobs not observed finished
(a job is observed finished only when its handle is non-null, the
query **succeeds**, and the code is not `STILL_ACTIVE`); in
particular a job whose query fails stays in the registry. -/
theorem c3_poll_skips_failed_queries :
    ∀ (env : JobsEnv) (jobs : List (Nat × JobRec)),
      (∀ p, p ∈ (check_background_jobs env jobs).1 ↔
          p ∈ jobs ∧ jobFinished env p.2 = false) ∧
      (∀ (k : Nat) (j : JobRec) (h : Nat),
          (k, j) ∈ jobs → j.hProcess = some h → env.queryOk h = false →
          (k, j) ∈ (check_background_jobs env jobs).1) := by
  intro env jobs
  have hmem : ∀ p, p ∈ (check_background_jobs env jobs).1 ↔
      p ∈ jobs ∧ jobFinished env p.2 = false := by
    intro p
    simp [check_background_jobs, List.mem_filter]
  refine ⟨hmem, ?_⟩
  intro k j h hq hproc hfail
  exact (hmem (k, j)).mpr ⟨hq, by simp [jobFinished, hproc, hfail]⟩

/-- Witness for C3 amended: the concrete job with failing query is
retained. -/
theorem c3_poll_skips_failed_queries_witness :
    (1, jrecQ) ∈ (check_background_jobs envQueryFail [(1, jrecQ)]).1 :=
  (c3_poll_skips_failed_queries envQueryFail [(1, jrecQ)]).2 1 jrecQ 7
    (by decide) (by decide) (by decide)

/-- C5 (confirmed): starting from the constructor state
(`job_counter = 1`), any interleaving of `add_job` and `remove_job`
calls assigns the ids `1, 2, 3, …` in order of the adds: ids start at
1, are strictly increasing, and are never reused — removals never
affect the counter. -/
theorem c5_job_ids_start_at_one_never_reused :
    ∀ ops : List JobOp,
      (runOps Registry.start ops).2
          = List.range' 1 (ops.countP (fun o => o.isAdd)) :=
  fun ops => (runOps_assigns ops Registry.start).1

/-- C7 (confirmed): with a well-formed numeric argument naming an id
held by no job, both `fg` and `kill` answer *job not found* and
return the registry unchanged; and when `kill` finds the job but
`TerminateProcess` fails, the error is reported and the registry is
again unchanged. -/
theorem c7_fg_kill_missing_id_unchanged :
    ∀ (termOk : Nat → Bool) (st : Registry) (args : List String) (jid : Int),
      2 ≤ args.length → stoiM (args.getD 1 "") = some jid →
      (((∀ q, q ∈ st.jobs → ((q.1 : Int) ≠ jid)) →
          builtin_fg st args = (st, FgOut.jobNotFound) ∧
          builtin_kill termOk st args = (st, KillOut.jobNotFound)) ∧
       (∀ p, st.jobs.find? (fun q => ((q.1 : Int) == jid)) = some p →
          (match p.2.hProcess with
           | some h => termOk h
           | none => false) = false →
          builtin_kill termOk st args = (st, KillOut.terminateFailed))) := by
  intro termOk st args jid hlen hparse
  have hnl : ¬ (args.length < 2) := by omega
  simp only [List.getD_eq_getElem?_getD] at hparse
  constructor
  · intro habs
    have hf : st.jobs.find? (fun q => ((q.1 : Int) == jid)) = none := by
      apply List.find?_eq_none.mpr
      intro q hq
      simpa using habs q hq
    constructor
    · simp [builtin_fg, hnl, hparse, hf]
    · simp [builtin_kill, hnl, hparse, hf]
  · intro p hfind hterm
    simp [builtin_kill, hnl, hparse, hfind, hterm]

/-- Witness for C7: in a registry holding only job 1 (with a live
handle), `fg 2` and `kill 2` report not-found without touching the
registry, and `kill 1` with `TerminateProcess` failing leaves the
entry in place. -/
theorem c7_fg_kill_missing_id_unchanged_witness :
    builtin_fg stW ["fg", "2"] = (stW, FgOut.jobNotFound) ∧
    builtin_kill (fun _ => false) stW ["kill", "2"] = (stW, KillOut.jobNotFound) ∧
    builtin_kill (fun _ => false) stW ["kill", "1"] = (stW, KillOut.terminateFailed) := by
  have h2 := c7_fg_kill_missing_id_unchanged (fun _ => false) stW ["fg", "2"] 2
    (by decide) (by decide)
  have h2k := c7_fg_kill_missing_id_unchanged (fun _ => false) stW ["kill", "2"] 2
    (by decide) (by decide)
  have h1 := c7_fg_kill_missing_id_unchanged (fun _ => false) stW ["kill", "1"] 1
    (by decide) (by decide)
  refine ⟨(h2.1 ?_).1, (h2k.1 ?_).2, h1.2 (1, jrecQ) (by decide) (by decide)⟩
  all_goals intro q hq; fin_cases hq; decide

/-- C8 (corrected): `"12abc"` is not an integer, yet
`exit 12abc` exits the shell with code 12 — `std::stoi` accepts the
leading digits and ignores the rest — refuting *for every non-integer
argument it prints an error and does not exit*. -/
theorem c8_trailing_junk_still_exits_cex :
    isIntegerLiteral "12abc" = false ∧
    builtin_exit ["exit", "12abc"] = ExitOut.exitWith 12 := by decide

/-- C8 amended: `exit` terminates the shell with the `std::stoi`
parse of its argument (the leading integer, trailing characters
ignored), defaulting to 0 with no argument; it prints the error and
keeps the shell running exactly when the parse throws — no leading
digits, or a value outside 32-bit `int` range. -/
theorem c8_exit_code_follows_stoi :
    ∀ s : String,
      ((∀ c, stoiM s = some c → builtin_exit ["exit", s] = ExitOut.exitWith c) ∧
       (stoiM s = none → builtin_exit ["exit", s] = ExitOut.invalidArgument) ∧
       builtin_exit ["exit"] = ExitOut.exitWith 0) := by
  intro s
  refine ⟨?_, ?_, by decide⟩
  · intro c hc
    simp [builtin_exit, hc]
  · intro hc
    simp [builtin_exit, hc]

/-- Witness for C8 amended: `exit 7` exits with code 7 and
`exit xyz` reports the invalid argument without exiting. -/
theorem c8_exit_code_follows_stoi_witness :
    builtin_exit ["exit", "7"] = ExitOut.exitWith 7 ∧
    builtin_exit ["exit", "xyz"] = ExitOut.invalidArgument :=
  ⟨(c8_exit_code_follows_stoi "7").1 7 (by decide),
   (c8_exit_code_follows_stoi "xyz").2.1 (by decide)⟩

end MiniShell
